import Mathlib

/-!
Shallow embedding of the `tsunami-wasm-contracts` task scripts.

The repository consists of six Node.js command-line scripts that talk to a
Terra blockchain node through the external `@terra-money/terra.js` library:
`query_basket.js`, `query_lp.js`, `provide_liquidity.js`, `swap.js`, a
standalone swap script with a hardcoded contract address, and `withdraw.js`.
Each script is a straight-line `async main` plus (for some) a top-level
argument-count check.

We embed every script as a pure function from its inputs (the relevant
environment variables and command-line arguments) to the linear trace of
observable effects it performs: console prints, the gas-price fetch, LCD
client construction, mnemonic-key construction, bank/contract queries,
transaction signing and broadcasting, and process exit.  A bare `exit(1)`
in the scripts aborts the enclosing execution at that point (nothing after
it runs), so it is modelled as a final `exitCall` step that ends the trace.
-/

namespace TsunamiTasks

/-- URL the scripts fetch gas prices from. -/
def gasPricesURL : String := "https://bombay-fcd.terra.dev/v1/txs/gas_prices"

/-- LCD endpoint every script passes to `new LCDClient`. -/
def lcdURL : String := "https://bombay-lcd.terra.dev/"

/-- Chain id every script passes to `new LCDClient`. -/
def chainID : String := "bombay-12"

/-- The seed phrase hardcoded (verbatim, in each file that signs or derives
an address) into `new MnemonicKey({mnemonic: ...})`. -/
def hardcodedMnemonic : String :=
  "notice oak worry limit basic speak medal online prefer cluster roof addict wrist behave treat actual wasp year salad speed social layer crew genius"

/-- Modelled from the spec: the glossary says a mnemonic key is "a seed
phrase used to deterministically derive a signing keypair".  The derivation
itself lives in the external `@terra-money/terra.js` library (not in this
repository), so we model the derived account address `mk.accAddress` as an
arbitrary but fixed pure function of the mnemonic string. -/
def accAddress (mnemonic : String) : String :=
  "terra1" ++ toString mnemonic.length

/-- Hex digits, used to model the `\uXXXX` escapes of `JSON.stringify`. -/
def hexDigit (n : Nat) : Char := "0123456789abcdef".data.getD n '0'

/-- How `JSON.stringify` escapes a single character inside a string value. -/
def jsonEscapeChar (c : Char) : List Char :=
  if c = '"' then ['\\', '"']
  else if c = '\\' then ['\\', '\\']
  else if c = '\x08' then ['\\', 'b']
  else if c = '\t' then ['\\', 't']
  else if c = '\n' then ['\\', 'n']
  else if c = '\x0c' then ['\\', 'f']
  else if c = '\r' then ['\\', 'r']
  else if c.toNat < 32 then
    ['\\', 'u', '0', '0', hexDigit (c.toNat / 16), hexDigit (c.toNat % 16)]
  else [c]

/-- `JSON.stringify` of a string value: quoted and escaped. -/
def jsonQuote (s : String) : String :=
  ⟨'"' :: (s.data.flatMap jsonEscapeChar) ++ ['"']⟩

/-- The base64 alphabet used by `btoa`. -/
def base64Alphabet : List Char :=
  "ABCDEFGHIJKLMNOPQRSTUVWXYZabcdefghijklmnopqrstuvwxyz0123456789+/".data

/-- Digit lookup in the base64 alphabet. -/
def base64Digit (n : Nat) : Char := base64Alphabet.getD n 'A'

/-- Base64-encode a list of byte values, three bytes to four digits, with
`=` padding, as `btoa` does. -/
def base64Chunks : List Nat → List Char
  | [] => []
  | [a] => [base64Digit (a / 4), base64Digit (a % 4 * 16), '=', '=']
  | [a, b] =>
    [base64Digit (a / 4), base64Digit (a % 4 * 16 + b / 16),
     base64Digit (b % 16 * 4), '=']
  | a :: b :: c :: rest =>
    base64Digit (a / 4) :: base64Digit (a % 4 * 16 + b / 16) ::
      base64Digit (b % 16 * 4 + c / 64) :: base64Digit (c % 64) ::
      base64Chunks rest

/-- The `btoa` builtin: base64 of the string's code points (the scripts only
apply it to ASCII JSON text, where code points coincide with bytes). -/
def btoa (s : String) : String :=
  ⟨base64Chunks (s.data.map Char.toNat)⟩

/-- Asset info, as in the contract messages: a native token denomination. -/
inductive AssetInfo
  | native_token (denom : String)
deriving DecidableEq

/-- An asset: an amount string together with its info. -/
structure Asset where
  amount : String
  info : AssetInfo
deriving DecidableEq

/-- The contract query messages the scripts issue. -/
inductive QueryMsg
  /-- The basket-state query `{"basket": \x7b\x7d}`. -/
  | basket
  /-- The cw20 balance query `{balance: {address}}`. -/
  | balance (address : String)
deriving DecidableEq

/-- The execute messages the scripts embed in a `MsgExecuteContract`. -/
inductive ExecuteMsg
  | swap (ask_asset : AssetInfo) (offer_asset : Asset) (sender : String)
  | deposit_liquidity (assets : List Asset)
  /-- The cw20 `send` hook: forward `amount` LP tokens to `contract`, with a
  base64-encoded payload `msg`. -/
  | send (contract : String) (amount : String) (msg : String)
deriving DecidableEq

/-- `new MsgExecuteContract(sender, contract, executeMsg, coins)`; a missing
fourth argument means no native coins attached. -/
structure MsgExecuteContract where
  sender : String
  contract : String
  execute_msg : ExecuteMsg
  coins : List (String × String)
deriving DecidableEq

/-- What a `console.log` call prints: a static (template) string, a contract
query result, a bank balance (`.toData()`), or a broadcast result (possibly
inside a template string with the given text before it). -/
inductive ConsoleOut
  | str (s : String)
  | queryResult (contract : String) (msg : QueryMsg)
  | bankData (address : String)
  | txResult (pre : String)
deriving DecidableEq

/-- One observable step of a script run. -/
inductive Step
  | log (out : ConsoleOut)
  | exitCall (code : Nat)
  | fetchGasPrices (url : String)
  | buildLCDClient (url : String) (chainID : String)
  | newMnemonicKey (mnemonic : String)
  | bankBalance (address : String)
  | contractQuery (contract : String) (msg : QueryMsg)
  | signTx (msgs : List MsgExecuteContract)
  | broadcast (msgs : List MsgExecuteContract)
deriving DecidableEq

/-- The two environment variables the scripts read. -/
structure Env where
  CONTRACT : Option String
  LP_CONTRACT : Option String
deriving DecidableEq

/-- JavaScript truthiness of `process.env.X` in `if (!x)`: falsy when the
variable is unset or the empty string. -/
def falsy : Option String → Bool
  | none => true
  | some s => s.isEmpty

/-- The error message printed when `CONTRACT` is missing. -/
def contractErr : String :=
  "Please set CONTRACT environment variable to the contract address"

/-- The error message printed when `LP_CONTRACT` is missing. -/
def lpContractErr : String :=
  "Please set LP_CONTRACT environment variable to the contract address"

namespace QueryBasket

/-- Body of `query_basket.js` after the environment check succeeded. -/
def go (contract : String) : List Step :=
  [.log (.str ("contract: " ++ contract)),
   .fetchGasPrices gasPricesURL,
   .buildLCDClient lcdURL chainID,
   .contractQuery contract .basket,
   .log (.queryResult contract .basket)]

/-- `async function main()` of `query_basket.js`. -/
def main (env : Env) : List Step :=
  if falsy env.CONTRACT then [.log (.str contractErr), .exitCall 1]
  else go (env.CONTRACT.getD "")

end QueryBasket

namespace QueryLp

/-- Body of `query_lp.js` after the environment check succeeded. -/
def go (lpContract : String) : List Step :=
  [.log (.str ("contract: " ++ lpContract)),
   .fetchGasPrices gasPricesURL,
   .buildLCDClient lcdURL chainID,
   .newMnemonicKey hardcodedMnemonic,
   .contractQuery lpContract (.balance (accAddress hardcodedMnemonic)),
   .log (.queryResult lpContract (.balance (accAddress hardcodedMnemonic)))]

/-- `async function main()` of `query_lp.js`. -/
def main (env : Env) : List Step :=
  if falsy env.LP_CONTRACT then [.log (.str lpContractErr), .exitCall 1]
  else go (env.LP_CONTRACT.getD "")

end QueryLp

namespace ProvideLiquidity

/-- The `MsgExecuteContract` built by `provide_liquidity.js`. -/
def msg (sender contract denom amount : String) : MsgExecuteContract :=
  { sender := sender, contract := contract,
    execute_msg :=
      .deposit_liquidity [{ amount := amount, info := .native_token denom }],
    coins := [(denom, amount)] }

/-- Body of `provide_liquidity.js` after both environment checks succeeded. -/
def go (contract lpContract denom amount : String) : List Step :=
  let addr := accAddress hardcodedMnemonic
  let m := msg addr contract denom amount
  [.log (.str ("contract: " ++ contract ++ ", lpContract: " ++ lpContract)),
   .fetchGasPrices gasPricesURL,
   .buildLCDClient lcdURL chainID,
   .newMnemonicKey hardcodedMnemonic,
   .bankBalance addr,
   .contractQuery lpContract (.balance addr),
   .log (.str "before provide liquidity, you have:"),
   .log (.bankData addr),
   .log (.str "LP token:"),
   .log (.queryResult lpContract (.balance addr)),
   .signTx [m],
   .broadcast [m],
   .log (.txResult "provide liquidity tx result: "),
   .bankBalance addr,
   .contractQuery lpContract (.balance addr),
   .log (.str "after provide liquidity, you have:"),
   .log (.bankData addr),
   .log (.str "LP token:"),
   .log (.queryResult lpContract (.balance addr))]

/-- `async function main(denom, amount)` of `provide_liquidity.js`. -/
def main (env : Env) (denom amount : String) : List Step :=
  if falsy env.CONTRACT then [.log (.str contractErr), .exitCall 1]
  else if falsy env.LP_CONTRACT then [.log (.str lpContractErr), .exitCall 1]
  else go (env.CONTRACT.getD "") (env.LP_CONTRACT.getD "") denom amount

end ProvideLiquidity

namespace Swap

/-- The `MsgExecuteContract` built by `swap.js` (and, with its hardcoded
values, by the standalone swap script). -/
def msg (sender contract offer_asset offer_amount ask_asset : String) :
    MsgExecuteContract :=
  { sender := sender, contract := contract,
    execute_msg :=
      .swap (.native_token ask_asset)
        { amount := offer_amount, info := .native_token offer_asset } sender,
    coins := [(offer_asset, offer_amount)] }

/-- Body of `swap.js` after both environment checks succeeded. -/
def go (contract offer_asset offer_amount ask_asset : String) : List Step :=
  let addr := accAddress hardcodedMnemonic
  let m := msg addr contract offer_asset offer_amount ask_asset
  [.fetchGasPrices gasPricesURL,
   .buildLCDClient lcdURL chainID,
   .newMnemonicKey hardcodedMnemonic,
   .bankBalance addr,
   .log (.str "before swap, you have:"),
   .log (.bankData addr),
   .signTx [m],
   .broadcast [m],
   .log (.txResult ""),
   .bankBalance addr,
   .log (.str "after swap, you have:"),
   .log (.bankData addr)]

/-- `async function main(offer_asset, offer_amount, ask_asset)` of
`swap.js`. -/
def main (env : Env) (offer_asset offer_amount ask_asset : String) :
    List Step :=
  if falsy env.CONTRACT then [.log (.str contractErr), .exitCall 1]
  else if falsy env.LP_CONTRACT then [.log (.str lpContractErr), .exitCall 1]
  else go (env.CONTRACT.getD "") offer_asset offer_amount ask_asset

end Swap

namespace Swap0

/-- The contract address hardcoded into the standalone swap script. -/
def contract : String := "terra122dgdy3a6mwlru6deqynrsm3n7e0qax999q3za"

/-- `async function main()` of the standalone swap script: no environment
checks, `createAndSignTx` not awaited, the broadcast and the after-balance
commented out. -/
def main : List Step :=
  let addr := accAddress hardcodedMnemonic
  let m := Swap.msg addr contract "uluna" "100000" "uusd"
  [.fetchGasPrices gasPricesURL,
   .buildLCDClient lcdURL chainID,
   .newMnemonicKey hardcodedMnemonic,
   .bankBalance addr,
   .log (.bankData addr),
   .signTx [m]]

end Swap0

namespace Withdraw

/-- The `cw20HookMsg` object of `withdraw.js`, as `JSON.stringify` renders
it. -/
def cw20HookJson (denom : String) : String :=
  "\x7b\"withdraw_liquidity\":\x7b\"asset\":\x7b\"native_token\":\x7b\"denom\":"
    ++ jsonQuote denom ++ "\x7d\x7d\x7d\x7d"

/-- The `MsgExecuteContract` built by `withdraw.js`: a cw20 `send` on the
LP token contract, with no fourth (coins) argument. -/
def msg (sender lpContract contract amount denom : String) :
    MsgExecuteContract :=
  { sender := sender, contract := lpContract,
    execute_msg := .send contract amount (btoa (cw20HookJson denom)),
    coins := [] }

/-- Body of `withdraw.js` after both environment checks succeeded. -/
def go (contract lpContract denom amount : String) : List Step :=
  let addr := accAddress hardcodedMnemonic
  let m := msg addr lpContract contract amount denom
  [.log (.str ("contract: " ++ contract ++ ", lpContract: " ++ lpContract)),
   .fetchGasPrices gasPricesURL,
   .buildLCDClient lcdURL chainID,
   .newMnemonicKey hardcodedMnemonic,
   .bankBalance addr,
   .contractQuery lpContract (.balance addr),
   .log (.str "before provide liquidity, you have:"),
   .log (.bankData addr),
   .log (.str "LP token:"),
   .log (.queryResult lpContract (.balance addr)),
   .signTx [m],
   .broadcast [m],
   .log (.txResult "withdraw tx result: "),
   .bankBalance addr,
   .contractQuery lpContract (.balance addr),
   .log (.str "after withdraw, you have:"),
   .log (.bankData addr),
   .log (.str "LP token:"),
   .log (.queryResult lpContract (.balance addr))]

/-- `async function main(denom, amount)` of `withdraw.js`. -/
def main (env : Env) (denom amount : String) : List Step :=
  if falsy env.CONTRACT then [.log (.str contractErr), .exitCall 1]
  else if falsy env.LP_CONTRACT then [.log (.str lpContractErr), .exitCall 1]
  else go (env.CONTRACT.getD "") (env.LP_CONTRACT.getD "") denom amount

end Withdraw

/-- The six scripts of the repository. -/
inductive Script
  | query_basket
  | query_lp
  | provide_liquidity
  | swap
  | swap0
  | withdraw
deriving DecidableEq

/-- The usage string a script prints when given too few arguments (empty for
the scripts that take none and have no top-level check). -/
def usage : Script → String
  | .swap => "Usage: node swap.js <offer_denom> <offer_amount> <ask_denom>"
  | .provide_liquidity => "Usage: node provide_liquidity.js <denom> <amount>"
  | .withdraw => "Usage: node withdraw.js <denom> <amount>"
  | _ => ""

/-- How many command-line arguments the script's top-level check requires. -/
def requiredArgs : Script → Nat
  | .swap => 3
  | .provide_liquidity => 2
  | .withdraw => 2
  | _ => 0

/-- Run a script: the top-level argument check (if any) followed by `main`.
`args` is `process.argv.slice(2)`. -/
def run (s : Script) (env : Env) (args : List String) : List Step :=
  match s with
  | .query_basket => QueryBasket.main env
  | .query_lp => QueryLp.main env
  | .swap0 => Swap0.main
  | .swap =>
    if args.length < 3 then [.log (.str (usage .swap)), .exitCall 1]
    else Swap.main env (args.getD 0 "") (args.getD 1 "") (args.getD 2 "")
  | .provide_liquidity =>
    if args.length < 2 then
      [.log (.str (usage .provide_liquidity)), .exitCall 1]
    else ProvideLiquidity.main env (args.getD 0 "") (args.getD 1 "")
  | .withdraw =>
    if args.length < 2 then [.log (.str (usage .withdraw)), .exitCall 1]
    else Withdraw.main env (args.getD 0 "") (args.getD 1 "")

/-- The modules each script `require`s (all external packages; no script
imports another file of the repository). -/
def requires : Script → List String
  | _ => ["isomorphic-fetch", "@terra-money/terra.js"]

/-- Whether a module specifier is a path to a repository file (it starts
with `./`, `../` or `/`), as opposed to an external package name. -/
def isLocalPath (m : String) : Bool :=
  match m.data with
  | '.' :: '/' :: _ => true
  | '.' :: '.' :: '/' :: _ => true
  | '/' :: _ => true
  | _ => false

/-- Whether the script's source constructs a `MnemonicKey`
(`query_basket.js` is the only one that does not). -/
def usesMnemonicKey : Script → Bool
  | .query_basket => false
  | _ => true

/-- Line count of each script's source text. -/
def sourceLineCount : Script → Nat
  | .query_basket => 33
  | .query_lp => 38
  | .provide_liquidity => 92
  | .swap => 78
  | .swap0 => 60
  | .withdraw => 95

/-- Whether the script's source reads `process.env.CONTRACT` and checks it. -/
def requiresContract : Script → Bool
  | .query_lp => false
  | .swap0 => false
  | _ => true

/-- Whether the script's source reads `process.env.LP_CONTRACT` and checks
it. -/
def requiresLp : Script → Bool
  | .query_basket => false
  | .swap0 => false
  | _ => true

/-- Whether the script signs (and, except for the standalone swap script,
broadcasts) a transaction. -/
def txScript : Script → Bool
  | .query_basket => false
  | .query_lp => false
  | _ => true

/-- Whether a step is the gas-price fetch. -/
def isFetch : Step → Bool
  | .fetchGasPrices _ => true
  | _ => false

/-- Whether a step is the LCD client construction. -/
def isBuild : Step → Bool
  | .buildLCDClient _ _ => true
  | _ => false

/-- Whether a step is a mnemonic-key construction. -/
def isMk : Step → Bool
  | .newMnemonicKey _ => true
  | _ => false

/-- Whether a step is a query to the node (a wasm contract query or a bank
balance query). -/
def isQueryStep : Step → Bool
  | .contractQuery _ _ => true
  | .bankBalance _ => true
  | _ => false

/-- Whether a step is a wasm contract query. -/
def isContractQuery : Step → Bool
  | .contractQuery _ _ => true
  | _ => false

/-- Whether a step signs a transaction. -/
def isSign : Step → Bool
  | .signTx _ => true
  | _ => false

/-- Whether a step broadcasts a transaction. -/
def isBroadcast : Step → Bool
  | .broadcast _ => true
  | _ => false

/-- Whether a step is a console print. -/
def isLog : Step → Bool
  | .log _ => true
  | _ => false

/-- Whether a step signs or queries (the third stage of the
fetch-build-sign/query-print pipeline). -/
def isSignOrQuery (s : Step) : Bool := isSign s || isQueryStep s

/-- The trace contains a transaction-signing step. -/
def signsTx (t : List Step) : Bool := t.any isSign

/-- The trace contains a broadcast step. -/
def broadcasts (t : List Step) : Bool := t.any isBroadcast

/-- The trace contains an LCD client construction. -/
def buildsClient (t : List Step) : Bool := t.any isBuild

/-- The trace contains a mnemonic-key construction. -/
def constructsKey (t : List Step) : Bool := t.any isMk

/-- The trace contains a gas-price fetch. -/
def fetches (t : List Step) : Bool := t.any isFetch

/-- The trace contains a wasm contract query. -/
def queriesContract (t : List Step) : Bool := t.any isContractQuery

/-- The trace contains a console print. -/
def printsConsole (t : List Step) : Bool := t.any isLog

/-- The mnemonic of every `new MnemonicKey` constructed in the trace. -/
def mnemonics (t : List Step) : List String :=
  t.filterMap fun s =>
    match s with
    | .newMnemonicKey m => some m
    | _ => none

/-- The messages of every signed transaction in the trace. -/
def signedMsgs (t : List Step) : List MsgExecuteContract :=
  t.flatMap fun s =>
    match s with
    | .signTx ms => ms
    | _ => []

/-- The messages of every broadcast transaction in the trace. -/
def broadcastMsgs (t : List Step) : List MsgExecuteContract :=
  t.flatMap fun s =>
    match s with
    | .broadcast ms => ms
    | _ => []

/-- The trace is exactly an error print followed by `exit(1)`. -/
def errorExit (t : List Step) : Bool :=
  match t with
  | [.log (.str _), .exitCall 1] => true
  | _ => false

/-- The fetch-build-sign/query-print pipeline, on a trace: there is exactly
one gas-price fetch and one client construction, the fetch precedes the
client construction, every query and every signing comes after the client
construction, and a console print follows the first query-or-sign step. -/
def orderedRun (t : List Step) : Bool :=
  match t.findIdx? isFetch, t.findIdx? isBuild, t.findIdx? isSignOrQuery with
  | some i, some j, some q =>
    decide (i < j) && decide (j < q) &&
    (t.countP isFetch == 1) && (t.countP isBuild == 1) &&
    t.enum.all (fun p => !isSignOrQuery p.2 || decide (j < p.1)) &&
    (t.drop (q + 1)).any isLog
  | _, _, _ => false

/-- The attached native coins of a `MsgExecuteContract` are exactly the
native asset embedded in its execute message (the offer asset of a swap, or
the single deposited asset of a `deposit_liquidity`). -/
def coinsMatchAsset (m : MsgExecuteContract) : Bool :=
  match m.execute_msg with
  | .swap _ offer _ =>
    match offer.info with
    | .native_token d => m.coins == [(d, offer.amount)]
  | .deposit_liquidity [a] =>
    match a.info with
    | .native_token d => m.coins == [(d, a.amount)]
  | _ => false

/-- Evaluation of `falsy` on an unset variable. -/
theorem falsy_none : falsy none = true := rfl

/-- Evaluation of `falsy` on a set variable. -/
theorem falsy_some (s : String) : falsy (some s) = s.isEmpty := rfl

/-- C3: every script, run with both environment variables set to non-empty
values and enough command-line arguments to get past its top-level check,
performs its steps in the fixed pipeline order: the (single) gas-price fetch
comes before the (single) LCD client construction, the client construction
comes before every query and every transaction signing, and a console print
follows the first query-or-sign step.  The trace is a linear list, so no
step starts before the previous one has completed. -/
theorem script_steps_ordered (s : Script) (env : Env) (args : List String)
    (hc : falsy env.CONTRACT = false) (hl : falsy env.LP_CONTRACT = false)
    (ha : requiredArgs s ≤ args.length) :
    orderedRun (run s env args) = true := by
  cases s
  case query_basket =>
    have key : run .query_basket env args = QueryBasket.go (env.CONTRACT.getD "") := by
      simp [run, QueryBasket.main, hc]
    rw [key]; exact rfl
  case query_lp =>
    have key : run .query_lp env args = QueryLp.go (env.LP_CONTRACT.getD "") := by
      simp [run, QueryLp.main, hl]
    rw [key]; exact rfl
  case swap0 => exact rfl
  case swap =>
    have hlen : ¬ args.length < 3 := Nat.not_lt.mpr ha
    have key : run .swap env args =
        Swap.go (env.CONTRACT.getD "") (args.getD 0 "") (args.getD 1 "")
          (args.getD 2 "") := by
      simp [run, hlen, Swap.main, hc, hl]
    rw [key]; exact rfl
  case provide_liquidity =>
    have hlen : ¬ args.length < 2 := Nat.not_lt.mpr ha
    have key : run .provide_liquidity env args =
        ProvideLiquidity.go (env.CONTRACT.getD "") (env.LP_CONTRACT.getD "")
          (args.getD 0 "") (args.getD 1 "") := by
      simp [run, hlen, ProvideLiquidity.main, hc, hl]
    rw [key]; exact rfl
  case withdraw =>
    have hlen : ¬ args.length < 2 := Nat.not_lt.mpr ha
    have key : run .withdraw env args =
        Withdraw.go (env.CONTRACT.getD "") (env.LP_CONTRACT.getD "")
          (args.getD 0 "") (args.getD 1 "") := by
      simp [run, hlen, Withdraw.main, hc, hl]
    rw [key]; exact rfl

/-- Witness for the pipeline-order theorem, at the swap script on concrete
inputs. -/
theorem script_steps_ordered_witness :
    orderedRun (run .swap ⟨some "terra1basket", some "terra1lp"⟩
      ["uluna", "100000", "uusd"]) = true :=
  script_steps_ordered .swap ⟨some "terra1basket", some "terra1lp"⟩
    ["uluna", "100000", "uusd"] rfl rfl (by decide)

/-- C2: if a script requires an environment variable (`CONTRACT` or
`LP_CONTRACT`) and that variable is unset, the run is exactly one error
print followed by `exit(1)`: no contract query is issued, no transaction is
signed, and nothing is broadcast. -/
theorem missing_env_exits (s : Script) (env : Env) (args : List String)
    (h : (requiresContract s = true ∧ env.CONTRACT = none) ∨
         (requiresLp s = true ∧ env.LP_CONTRACT = none)) :
    errorExit (run s env args) = true ∧
    queriesContract (run s env args) = false ∧
    signsTx (run s env args) = false ∧
    broadcasts (run s env args) = false := by
  have key : ∃ e, run s env args = [.log (.str e), .exitCall 1] := by
    cases s
    case query_basket =>
      rcases h with ⟨_, hn⟩ | ⟨hb, _⟩
      · exact ⟨contractErr, by simp [run, QueryBasket.main, hn, falsy_none]⟩
      · simp [requiresLp] at hb
    case query_lp =>
      rcases h with ⟨hb, _⟩ | ⟨_, hn⟩
      · simp [requiresContract] at hb
      · exact ⟨lpContractErr, by simp [run, QueryLp.main, hn, falsy_none]⟩
    case swap0 =>
      rcases h with ⟨hb, _⟩ | ⟨hb, _⟩ <;>
        simp [requiresContract, requiresLp] at hb
    case swap =>
      by_cases hlen : args.length < 3
      · exact ⟨usage .swap, by simp [run, hlen]⟩
      · rcases h with ⟨_, hn⟩ | ⟨_, hn⟩
        · exact ⟨contractErr, by simp [run, hlen, Swap.main, hn, falsy_none]⟩
        · cases hc2 : falsy env.CONTRACT
          · exact ⟨lpContractErr,
              by simp [run, hlen, Swap.main, hc2, hn, falsy_none]⟩
          · exact ⟨contractErr, by simp [run, hlen, Swap.main, hc2]⟩
    case provide_liquidity =>
      by_cases hlen : args.length < 2
      · exact ⟨usage .provide_liquidity, by simp [run, hlen]⟩
      · rcases h with ⟨_, hn⟩ | ⟨_, hn⟩
        · exact ⟨contractErr,
            by simp [run, hlen, ProvideLiquidity.main, hn, falsy_none]⟩
        · cases hc2 : falsy env.CONTRACT
          · exact ⟨lpContractErr,
              by simp [run, hlen, ProvideLiquidity.main, hc2, hn, falsy_none]⟩
          · exact ⟨contractErr,
              by simp [run, hlen, ProvideLiquidity.main, hc2]⟩
    case withdraw =>
      by_cases hlen : args.length < 2
      · exact ⟨usage .withdraw, by simp [run, hlen]⟩
      · rcases h with ⟨_, hn⟩ | ⟨_, hn⟩
        · exact ⟨contractErr, by simp [run, hlen, Withdraw.main, hn, falsy_none]⟩
        · cases hc2 : falsy env.CONTRACT
          · exact ⟨lpContractErr,
              by simp [run, hlen, Withdraw.main, hc2, hn, falsy_none]⟩
          · exact ⟨contractErr, by simp [run, hlen, Withdraw.main, hc2]⟩
  obtain ⟨e, he⟩ := key
  rw [he]
  exact ⟨rfl, rfl, rfl, rfl⟩

/-- Witness for the missing-environment-variable theorem, at the basket
query script with `CONTRACT` unset. -/
theorem missing_env_exits_witness :
    errorExit (run .query_basket ⟨none, none⟩ []) = true ∧
    queriesContract (run .query_basket ⟨none, none⟩ []) = false ∧
    signsTx (run .query_basket ⟨none, none⟩ []) = false ∧
    broadcasts (run .query_basket ⟨none, none⟩ []) = false :=
  missing_env_exits .query_basket ⟨none, none⟩ [] (Or.inl ⟨rfl, rfl⟩)

/-- C10: a script whose top level checks the argument count, when run with
fewer arguments than required, prints exactly the usage message and exits:
`main` is never invoked, so there is no gas-price fetch, no query, no
signing and no broadcast. -/
theorem short_args_usage (s : Script) (env : Env) (args : List String)
    (h0 : requiredArgs s ≠ 0) (hlen : args.length < requiredArgs s) :
    run s env args = [.log (.str (usage s)), .exitCall 1] ∧
    fetches (run s env args) = false ∧
    queriesContract (run s env args) = false ∧
    signsTx (run s env args) = false ∧
    broadcasts (run s env args) = false := by
  have key : run s env args = [.log (.str (usage s)), .exitCall 1] := by
    cases s
    case query_basket => simp [requiredArgs] at h0
    case query_lp => simp [requiredArgs] at h0
    case swap0 => simp [requiredArgs] at h0
    case swap =>
      simp only [requiredArgs] at hlen
      simp [run, hlen]
    case provide_liquidity =>
      simp only [requiredArgs] at hlen
      simp [run, hlen]
    case withdraw =>
      simp only [requiredArgs] at hlen
      simp [run, hlen]
  rw [key]
  exact ⟨rfl, rfl, rfl, rfl, rfl⟩

/-- Witness for the short-argument theorem, at the swap script with no
arguments. -/
theorem short_args_usage_witness :
    run .swap ⟨none, none⟩ [] =
      [.log (.str (usage .swap)), .exitCall 1] ∧
    fetches (run .swap ⟨none, none⟩ []) = false ∧
    queriesContract (run .swap ⟨none, none⟩ []) = false ∧
    signsTx (run .swap ⟨none, none⟩ []) = false ∧
    broadcasts (run .swap ⟨none, none⟩ []) = false :=
  short_args_usage .swap ⟨none, none⟩ [] (by decide) (by decide)

/-- A successful basket-query run is its post-check body. -/
theorem run_query_basket_go (env : Env) (args : List String)
    (hc : falsy env.CONTRACT = false) :
    run .query_basket env args = QueryBasket.go (env.CONTRACT.getD "") := by
  simp [run, QueryBasket.main, hc]

/-- A successful LP-balance-query run is its post-check body. -/
theorem run_query_lp_go (env : Env) (args : List String)
    (hl : falsy env.LP_CONTRACT = false) :
    run .query_lp env args = QueryLp.go (env.LP_CONTRACT.getD "") := by
  simp [run, QueryLp.main, hl]

/-- A successful swap run is its post-check body. -/
theorem run_swap_go (env : Env) (args : List String)
    (hc : falsy env.CONTRACT = false) (hl : falsy env.LP_CONTRACT = false)
    (ha : 3 ≤ args.length) :
    run .swap env args =
      Swap.go (env.CONTRACT.getD "") (args.getD 0 "") (args.getD 1 "")
        (args.getD 2 "") := by
  simp [run, Nat.not_lt.mpr ha, Swap.main, hc, hl]

/-- A successful provide-liquidity run is its post-check body. -/
theorem run_provide_go (env : Env) (args : List String)
    (hc : falsy env.CONTRACT = false) (hl : falsy env.LP_CONTRACT = false)
    (ha : 2 ≤ args.length) :
    run .provide_liquidity env args =
      ProvideLiquidity.go (env.CONTRACT.getD "") (env.LP_CONTRACT.getD "")
        (args.getD 0 "") (args.getD 1 "") := by
  simp [run, Nat.not_lt.mpr ha, ProvideLiquidity.main, hc, hl]

/-- A successful withdraw run is its post-check body. -/
theorem run_withdraw_go (env : Env) (args : List String)
    (hc : falsy env.CONTRACT = false) (hl : falsy env.LP_CONTRACT = false)
    (ha : 2 ≤ args.length) :
    run .withdraw env args =
      Withdraw.go (env.CONTRACT.getD "") (env.LP_CONTRACT.getD "")
        (args.getD 0 "") (args.getD 1 "") := by
  simp [run, Nat.not_lt.mpr ha, Withdraw.main, hc, hl]

/-- Every run is either an error-and-exit trace or one of the five
post-check bodies. -/
theorem run_shape (s : Script) (env : Env) (args : List String) :
    (∃ e, run s env args = [.log (.str e), .exitCall 1]) ∨
    (∃ c, run s env args = QueryBasket.go c) ∨
    (∃ l, run s env args = QueryLp.go l) ∨
    (∃ c l d a, run s env args = ProvideLiquidity.go c l d a) ∨
    (∃ c oa om aa, run s env args = Swap.go c oa om aa) ∨
    run s env args = Swap0.main ∨
    (∃ c l d a, run s env args = Withdraw.go c l d a) := by
  cases s
  case query_basket =>
    simp only [run, QueryBasket.main]
    split_ifs
    · exact Or.inl ⟨contractErr, rfl⟩
    · exact Or.inr (Or.inl ⟨_, rfl⟩)
  case query_lp =>
    simp only [run, QueryLp.main]
    split_ifs
    · exact Or.inl ⟨lpContractErr, rfl⟩
    · exact Or.inr (Or.inr (Or.inl ⟨_, rfl⟩))
  case provide_liquidity =>
    simp only [run, ProvideLiquidity.main]
    split_ifs
    · exact Or.inl ⟨usage .provide_liquidity, rfl⟩
    · exact Or.inl ⟨contractErr, rfl⟩
    · exact Or.inl ⟨lpContractErr, rfl⟩
    · exact Or.inr (Or.inr (Or.inr (Or.inl ⟨_, _, _, _, rfl⟩)))
  case swap =>
    simp only [run, Swap.main]
    split_ifs
    · exact Or.inl ⟨usage .swap, rfl⟩
    · exact Or.inl ⟨contractErr, rfl⟩
    · exact Or.inl ⟨lpContractErr, rfl⟩
    · exact Or.inr (Or.inr (Or.inr (Or.inr (Or.inl ⟨_, _, _, _, rfl⟩))))
  case swap0 =>
    exact Or.inr (Or.inr (Or.inr (Or.inr (Or.inr (Or.inl rfl)))))
  case withdraw =>
    simp only [run, Withdraw.main]
    split_ifs
    · exact Or.inl ⟨usage .withdraw, rfl⟩
    · exact Or.inl ⟨contractErr, rfl⟩
    · exact Or.inl ⟨lpContractErr, rfl⟩
    · exact Or.inr (Or.inr (Or.inr (Or.inr (Or.inr (Or.inr
        ⟨_, _, _, _, rfl⟩)))))

/-- Mnemonics collected from an error-and-exit trace. -/
theorem mnemonics_error (e : String) (k : Nat) :
    mnemonics [.log (.str e), .exitCall k] = [] := rfl

/-- Mnemonics collected from the basket-query body: it builds no key. -/
theorem mnemonics_qb_go (c : String) : mnemonics (QueryBasket.go c) = [] := rfl

/-- Mnemonics collected from the LP-query body. -/
theorem mnemonics_qlp_go (l : String) :
    mnemonics (QueryLp.go l) = [hardcodedMnemonic] := rfl

/-- Mnemonics collected from the provide-liquidity body. -/
theorem mnemonics_pl_go (c l d a : String) :
    mnemonics (ProvideLiquidity.go c l d a) = [hardcodedMnemonic] := rfl

/-- Mnemonics collected from the swap body. -/
theorem mnemonics_swap_go (c oa om aa : String) :
    mnemonics (Swap.go c oa om aa) = [hardcodedMnemonic] := rfl

/-- Mnemonics collected from the standalone swap script. -/
theorem mnemonics_swap0 : mnemonics Swap0.main = [hardcodedMnemonic] := rfl

/-- Mnemonics collected from the withdraw body. -/
theorem mnemonics_wd_go (c l d a : String) :
    mnemonics (Withdraw.go c l d a) = [hardcodedMnemonic] := rfl

/-- Every mnemonic key constructed by any run of any script is built from
the one hardcoded seed phrase. -/
theorem mnemonics_in_run (s : Script) (env : Env) (args : List String) :
    ∀ m ∈ mnemonics (run s env args), m = hardcodedMnemonic := by
  intro m hm
  rcases run_shape s env args with ⟨e, he⟩ | ⟨c, he⟩ | ⟨l, he⟩ |
    ⟨c, l, d, a, he⟩ | ⟨c, oa, om, aa, he⟩ | he | ⟨c, l, d, a, he⟩ <;>
      rw [he] at hm
  · rw [mnemonics_error] at hm; simp at hm
  · rw [mnemonics_qb_go] at hm; simp at hm
  · rw [mnemonics_qlp_go] at hm; simp at hm; exact hm
  · rw [mnemonics_pl_go] at hm; simp at hm; exact hm
  · rw [mnemonics_swap_go] at hm; simp at hm; exact hm
  · rw [mnemonics_swap0] at hm; simp at hm; exact hm
  · rw [mnemonics_wd_go] at hm; simp at hm; exact hm

/-- C7: mnemonic-key derivation is deterministic across runs and scripts:
any two `MnemonicKey` constructions arising in any two runs (of the same or
of different scripts) use the same mnemonic string, and therefore derive
the same account address `mk.accAddress`. -/
theorem mnemonic_key_deterministic (s1 s2 : Script) (env1 env2 : Env)
    (args1 args2 : List String) (m1 m2 : String)
    (h1 : m1 ∈ mnemonics (run s1 env1 args1))
    (h2 : m2 ∈ mnemonics (run s2 env2 args2)) :
    m1 = m2 ∧ accAddress m1 = accAddress m2 := by
  rw [mnemonics_in_run s1 env1 args1 m1 h1, mnemonics_in_run s2 env2 args2 m2 h2]
  exact ⟨rfl, rfl⟩

/-- Witness for the mnemonic-determinism theorem, comparing an LP-query run
with the standalone swap run. -/
theorem mnemonic_key_deterministic_witness :
    hardcodedMnemonic = hardcodedMnemonic ∧
    accAddress hardcodedMnemonic = accAddress hardcodedMnemonic :=
  mnemonic_key_deterministic .query_lp .swap0 ⟨none, some "terra1lp"⟩
    ⟨none, none⟩ [] [] hardcodedMnemonic hardcodedMnemonic
    (by rw [run_query_lp_go ⟨none, some "terra1lp"⟩ [] rfl]
        rw [show (Env.mk none (some "terra1lp")).LP_CONTRACT.getD "" = "terra1lp" from rfl]
        rw [mnemonics_qlp_go]
        exact List.mem_singleton.mpr rfl)
    (by rw [show run .swap0 ⟨none, none⟩ [] = Swap0.main from rfl, mnemonics_swap0]
        exact List.mem_singleton.mpr rfl)

/-- C5: with `CONTRACT` set to a non-empty address `c`, the basket query
script's run is exactly: print the address, fetch gas prices, build the LCD
client, send the query message `{"basket": \x7b\x7d}` to `c`, and print the
query result; it signs no transaction and broadcasts nothing. -/
theorem query_basket_behavior (env : Env) (args : List String) (c : String)
    (hc : env.CONTRACT = some c) (hne : c.isEmpty = false) :
    run .query_basket env args =
      [.log (.str ("contract: " ++ c)),
       .fetchGasPrices gasPricesURL,
       .buildLCDClient lcdURL chainID,
       .contractQuery c .basket,
       .log (.queryResult c .basket)] ∧
    signsTx (run .query_basket env args) = false ∧
    broadcasts (run .query_basket env args) = false := by
  have hcf : falsy env.CONTRACT = false := by rw [hc, falsy_some]; exact hne
  have key : run .query_basket env args = QueryBasket.go c := by
    rw [run_query_basket_go env args hcf, hc]
    rfl
  rw [key]
  exact ⟨rfl, rfl, rfl⟩

/-- Witness for the basket-query theorem at a concrete address. -/
theorem query_basket_behavior_witness :
    run .query_basket ⟨some "terra1basket", none⟩ [] =
      [.log (.str ("contract: " ++ "terra1basket")),
       .fetchGasPrices gasPricesURL,
       .buildLCDClient lcdURL chainID,
       .contractQuery "terra1basket" .basket,
       .log (.queryResult "terra1basket" .basket)] ∧
    signsTx (run .query_basket ⟨some "terra1basket", none⟩ []) = false ∧
    broadcasts (run .query_basket ⟨some "terra1basket", none⟩ []) = false :=
  query_basket_behavior ⟨some "terra1basket", none⟩ [] "terra1basket" rfl rfl

/-- Signed messages of the basket-query body: none. -/
theorem signedMsgs_qb_go (c : String) :
    signedMsgs (QueryBasket.go c) = [] := rfl

/-- Signed messages of the LP-query body: none. -/
theorem signedMsgs_qlp_go (l : String) :
    signedMsgs (QueryLp.go l) = [] := rfl

/-- Signed messages of the swap body. -/
theorem signedMsgs_swap_go (c oa om aa : String) :
    signedMsgs (Swap.go c oa om aa) =
      [Swap.msg (accAddress hardcodedMnemonic) c oa om aa] := rfl

/-- Broadcast messages of the swap body. -/
theorem broadcastMsgs_swap_go (c oa om aa : String) :
    broadcastMsgs (Swap.go c oa om aa) =
      [Swap.msg (accAddress hardcodedMnemonic) c oa om aa] := rfl

/-- Signed messages of the provide-liquidity body. -/
theorem signedMsgs_pl_go (c l d a : String) :
    signedMsgs (ProvideLiquidity.go c l d a) =
      [ProvideLiquidity.msg (accAddress hardcodedMnemonic) c d a] := rfl

/-- Broadcast messages of the provide-liquidity body. -/
theorem broadcastMsgs_pl_go (c l d a : String) :
    broadcastMsgs (ProvideLiquidity.go c l d a) =
      [ProvideLiquidity.msg (accAddress hardcodedMnemonic) c d a] := rfl

/-- Signed messages of the standalone swap script. -/
theorem signedMsgs_swap0 :
    signedMsgs Swap0.main =
      [Swap.msg (accAddress hardcodedMnemonic) Swap0.contract
        "uluna" "100000" "uusd"] := rfl

/-- Signed messages of the withdraw body. -/
theorem signedMsgs_wd_go (c l d a : String) :
    signedMsgs (Withdraw.go c l d a) =
      [Withdraw.msg (accAddress hardcodedMnemonic) l c a d] := rfl

/-- Broadcast messages of the withdraw body. -/
theorem broadcastMsgs_wd_go (c l d a : String) :
    broadcastMsgs (Withdraw.go c l d a) =
      [Withdraw.msg (accAddress hardcodedMnemonic) l c a d] := rfl

/-- C6: with both variables set to non-empty addresses, the withdraw script
signs and broadcasts exactly one message, and that message targets the LP
token contract (not the basket contract): it is a cw20 `send` whose
`contract` field is the basket contract address, whose `msg` field is the
base64 encoding of the `withdraw_liquidity` hook for the given denom, and
which attaches no native coins. -/
theorem withdraw_executes_cw20_send (env : Env) (c l denom amount : String)
    (hc : env.CONTRACT = some c) (hcne : c.isEmpty = false)
    (hl : env.LP_CONTRACT = some l) (hlne : l.isEmpty = false) :
    signedMsgs (run .withdraw env [denom, amount]) =
      [{ sender := accAddress hardcodedMnemonic, contract := l,
         execute_msg := .send c amount (btoa (Withdraw.cw20HookJson denom)),
         coins := [] }] ∧
    broadcastMsgs (run .withdraw env [denom, amount]) =
      signedMsgs (run .withdraw env [denom, amount]) := by
  have hcf : falsy env.CONTRACT = false := by rw [hc, falsy_some]; exact hcne
  have hlf : falsy env.LP_CONTRACT = false := by rw [hl, falsy_some]; exact hlne
  have key : run .withdraw env [denom, amount] = Withdraw.go c l denom amount := by
    rw [run_withdraw_go env [denom, amount] hcf hlf (Nat.le_refl 2), hc, hl]
    rfl
  rw [key]
  exact ⟨rfl, rfl⟩

/-- Witness for the withdraw theorem at concrete addresses, denom and
amount. -/
theorem withdraw_executes_cw20_send_witness :
    signedMsgs (run .withdraw ⟨some "terra1basket", some "terra1lp"⟩
        ["uluna", "1000000"]) =
      [{ sender := accAddress hardcodedMnemonic, contract := "terra1lp",
         execute_msg := .send "terra1basket" "1000000"
           (btoa (Withdraw.cw20HookJson "uluna")),
         coins := [] }] ∧
    broadcastMsgs (run .withdraw ⟨some "terra1basket", some "terra1lp"⟩
        ["uluna", "1000000"]) =
      signedMsgs (run .withdraw ⟨some "terra1basket", some "terra1lp"⟩
        ["uluna", "1000000"]) :=
  withdraw_executes_cw20_send ⟨some "terra1basket", some "terra1lp"⟩
    "terra1basket" "terra1lp" "uluna" "1000000" rfl rfl rfl rfl

/-- C9: in the swap and provide-liquidity scripts, the native coins
attached to the executed `MsgExecuteContract` are exactly the offer
(respectively deposited) asset embedded in the execute message: the same
denom and amount strings. -/
theorem attached_coins_match_asset (env : Env)
    (oa om aa denom amount : String)
    (hc : falsy env.CONTRACT = false) (hl : falsy env.LP_CONTRACT = false) :
    (∃ m, signedMsgs (run .swap env [oa, om, aa]) = [m] ∧
       broadcastMsgs (run .swap env [oa, om, aa]) = [m] ∧
       m.coins = [(oa, om)] ∧ coinsMatchAsset m = true) ∧
    (∃ m, signedMsgs (run .provide_liquidity env [denom, amount]) = [m] ∧
       broadcastMsgs (run .provide_liquidity env [denom, amount]) = [m] ∧
       m.coins = [(denom, amount)] ∧ coinsMatchAsset m = true) := by
  have k1 : run .swap env [oa, om, aa] =
      Swap.go (env.CONTRACT.getD "") oa om aa := by
    rw [run_swap_go env [oa, om, aa] hc hl (Nat.le_refl 3)]
    rfl
  have k2 : run .provide_liquidity env [denom, amount] =
      ProvideLiquidity.go (env.CONTRACT.getD "") (env.LP_CONTRACT.getD "")
        denom amount := by
    rw [run_provide_go env [denom, amount] hc hl (Nat.le_refl 2)]
    rfl
  constructor
  · refine ⟨Swap.msg (accAddress hardcodedMnemonic) (env.CONTRACT.getD "")
      oa om aa, ?_, ?_, rfl, ?_⟩
    · rw [k1, signedMsgs_swap_go]
    · rw [k1, broadcastMsgs_swap_go]
    · simp [coinsMatchAsset, Swap.msg]
  · refine ⟨ProvideLiquidity.msg (accAddress hardcodedMnemonic)
      (env.CONTRACT.getD "") denom amount, ?_, ?_, rfl, ?_⟩
    · rw [k2, signedMsgs_pl_go]
    · rw [k2, broadcastMsgs_pl_go]
    · simp [coinsMatchAsset, ProvideLiquidity.msg]

/-- Witness for the coins-match-asset theorem at concrete denominations and
amounts. -/
theorem attached_coins_match_asset_witness :
    (∃ m, signedMsgs (run .swap ⟨some "terra1basket", some "terra1lp"⟩
        ["uluna", "100000", "uusd"]) = [m] ∧
       broadcastMsgs (run .swap ⟨some "terra1basket", some "terra1lp"⟩
        ["uluna", "100000", "uusd"]) = [m] ∧
       m.coins = [("uluna", "100000")] ∧ coinsMatchAsset m = true) ∧
    (∃ m, signedMsgs (run .provide_liquidity
        ⟨some "terra1basket", some "terra1lp"⟩ ["uusd", "42"]) = [m] ∧
       broadcastMsgs (run .provide_liquidity
        ⟨some "terra1basket", some "terra1lp"⟩ ["uusd", "42"]) = [m] ∧
       m.coins = [("uusd", "42")] ∧ coinsMatchAsset m = true) :=
  attached_coins_match_asset ⟨some "terra1basket", some "terra1lp"⟩
    "uluna" "100000" "uusd" "uusd" "42" rfl rfl

/-- C1 counterexample: the basket-state query script, run successfully with
both environment variables set, signs no transaction — refuting the claim
that every script (in particular the query scripts) signs one. -/
theorem every_script_signs_cex :
    signsTx (run .query_basket ⟨some "terra1basket", some "terra1lp"⟩ [])
      = false := rfl

/-- C1 amended: every script, run with the environment variables set to
non-empty values and enough arguments, constructs its own LCD client and
prints to the console; the four transaction scripts (provide-liquidity,
swap, the standalone swap and withdraw) sign a transaction while the two
query scripts sign none; and every signed message's sender is the address
derived from the hardcoded mnemonic key. -/
theorem scripts_build_sign_print (s : Script) (env : Env)
    (args : List String)
    (hc : falsy env.CONTRACT = false) (hl : falsy env.LP_CONTRACT = false)
    (ha : requiredArgs s ≤ args.length) :
    buildsClient (run s env args) = true ∧
    printsConsole (run s env args) = true ∧
    signsTx (run s env args) = txScript s ∧
    ((signedMsgs (run s env args)).all
      fun m => m.sender == accAddress hardcodedMnemonic) = true := by
  cases s
  case query_basket =>
    rw [run_query_basket_go env args hc]
    exact ⟨rfl, rfl, rfl, rfl⟩
  case query_lp =>
    rw [run_query_lp_go env args hl]
    exact ⟨rfl, rfl, rfl, rfl⟩
  case provide_liquidity =>
    rw [run_provide_go env args hc hl ha]
    refine ⟨rfl, rfl, rfl, ?_⟩
    rw [signedMsgs_pl_go]
    simp [ProvideLiquidity.msg]
  case swap =>
    rw [run_swap_go env args hc hl ha]
    refine ⟨rfl, rfl, rfl, ?_⟩
    rw [signedMsgs_swap_go]
    simp [Swap.msg]
  case swap0 =>
    refine ⟨rfl, rfl, rfl, ?_⟩
    rw [show run .swap0 env args = Swap0.main from rfl, signedMsgs_swap0]
    simp [Swap.msg]
  case withdraw =>
    rw [run_withdraw_go env args hc hl ha]
    refine ⟨rfl, rfl, rfl, ?_⟩
    rw [signedMsgs_wd_go]
    simp [Withdraw.msg]

/-- Witness for the amended client-sign-print theorem, at the withdraw
script on concrete inputs. -/
theorem scripts_build_sign_print_witness :
    buildsClient (run .withdraw ⟨some "terra1basket", some "terra1lp"⟩
      ["uluna", "10"]) = true ∧
    printsConsole (run .withdraw ⟨some "terra1basket", some "terra1lp"⟩
      ["uluna", "10"]) = true ∧
    signsTx (run .withdraw ⟨some "terra1basket", some "terra1lp"⟩
      ["uluna", "10"]) = txScript .withdraw ∧
    ((signedMsgs (run .withdraw ⟨some "terra1basket", some "terra1lp"⟩
      ["uluna", "10"])).all
      fun m => m.sender == accAddress hardcodedMnemonic) = true :=
  scripts_build_sign_print .withdraw ⟨some "terra1basket", some "terra1lp"⟩
    ["uluna", "10"] rfl rfl (by decide)

/-- Imports of each script evaluate to external packages only. -/
theorem requires_external (s : Script) :
    ((requires s).all fun m => !isLocalPath m) = true := by
  cases s <;> rfl

/-- C8 counterexample: the basket-state query script constructs no
`MnemonicKey` at all in a successful run, refuting the claim that each
script constructs its own LCDClient, MnemonicKey and wallet inside its own
`main`. -/
theorem scripts_construct_key_cex :
    constructsKey (run .query_basket ⟨some "terra1b", some "terra1l"⟩ [])
      = false := rfl

/-- C8 amended: no script imports anything from another file of the
repository (every `require` is an external package, not a relative path),
and each script, run successfully, constructs its own LCD client inside its
own `main` and constructs a `MnemonicKey` there exactly when its source
does (every script except the basket-state query script). -/
theorem no_cross_file_state (s : Script) (env : Env) (args : List String)
    (hc : falsy env.CONTRACT = false) (hl : falsy env.LP_CONTRACT = false)
    (ha : requiredArgs s ≤ args.length) :
    ((requires s).all fun m => !isLocalPath m) = true ∧
    buildsClient (run s env args) = true ∧
    constructsKey (run s env args) = usesMnemonicKey s := by
  refine ⟨requires_external s, ?_, ?_⟩ <;> cases s
  case query_basket => rw [run_query_basket_go env args hc]; rfl
  case query_lp => rw [run_query_lp_go env args hl]; rfl
  case provide_liquidity => rw [run_provide_go env args hc hl ha]; rfl
  case swap => rw [run_swap_go env args hc hl ha]; rfl
  case swap0 => rfl
  case withdraw => rw [run_withdraw_go env args hc hl ha]; rfl
  case query_basket => rw [run_query_basket_go env args hc]; rfl
  case query_lp => rw [run_query_lp_go env args hl]; rfl
  case provide_liquidity => rw [run_provide_go env args hc hl ha]; rfl
  case swap => rw [run_swap_go env args hc hl ha]; rfl
  case swap0 => rfl
  case withdraw => rw [run_withdraw_go env args hc hl ha]; rfl

/-- Witness for the no-cross-file-state theorem, at the LP query script. -/
theorem no_cross_file_state_witness :
    ((requires .query_lp).all fun m => !isLocalPath m) = true ∧
    buildsClient (run .query_lp ⟨some "terra1b", some "terra1lp"⟩ []) = true ∧
    constructsKey (run .query_lp ⟨some "terra1b", some "terra1lp"⟩ [])
      = usesMnemonicKey .query_lp :=
  no_cross_file_state .query_lp ⟨some "terra1b", some "terra1lp"⟩ [] rfl rfl
    (by decide)

/-- C4 counterexample: the withdraw script is 95 lines long, so it is not
under 90 lines. -/
theorem scripts_under_90_cex : ¬ sourceLineCount .withdraw < 90 := by decide

/-- C4 amended: every script in the repository is under 96 lines long (the
withdraw script, the longest, has 95 lines). -/
theorem scripts_under_96 (s : Script) : sourceLineCount s < 96 := by
  cases s <;> decide

end TsunamiTasks
